import Mathlib

/-!
# polySymmetry: the `polySymmetry` command (`src/polySymmetryCmd.cpp`)

A shallow embedding of `PolySymmetryCommand`.  The command object becomes a
record that is passed explicitly; a member function that returns an `MStatus`
becomes a function returning the status together with the updated record.
The host application (Maya) and the parts of the plugin that live in other
translation units (`meshData`, `polySymmetryNode`, `sceneCache`, `selection`)
are reached through the record `Maya` of host responses.
-/

namespace PolySymmetry

/-! ## Host types -/

/-- Status codes of the host API (`MStatus::MStatusCode`). -/
inductive MStatus where
  | kSuccess
  | kFailure
  | kInsufficientMemory
  | kInvalidParameter
  | kLicenseFailure
  | kUnknownParameter
  | kNotImplemented
  | kNotFound
  | kEndOfFile
  deriving DecidableEq, Repr

/-- Conversion `MStatus::operator bool`: true exactly for `kSuccess`. -/
def MStatus.ok : MStatus → Bool
  | .kSuccess => true
  | _ => false

/-- Handle to a dependency node (`MObject`); `none` is the null object. -/
structure MObject where
  handle : Option Nat
  deriving DecidableEq, Repr

/-- Default-constructed `MObject()`. -/
def MObject.null : MObject := ⟨none⟩

/-- Test `MObject::isNull`. -/
def MObject.isNull (o : MObject) : Bool := o.handle.isNone

/-- Path to a DAG node (`MDagPath`), with the answers of the queries the command asks of it. -/
structure MDagPath where
  isValid : Bool
  partialPathName : String
  hasFnMesh : Bool
  nodeHasFnMesh : Bool
  deriving DecidableEq, Repr

/-- Component kinds of `MFn::Type` used by the command. -/
inductive MFnType where
  | kMesh
  | kMeshEdgeComponent
  | kMeshVertComponent
  | kMeshPolygonComponent
  deriving DecidableEq, Repr

/-- One argument of an `MArgList`, tagged by the `addArg` overload that stored it. -/
inductive MArg where
  | bool (b : Bool)
  | int (i : Int)
  | string (s : String)
  deriving DecidableEq, Repr

abbrev MArgList := List MArg

/-- Selection list (`MSelectionList`): the names that were added to it. -/
abbrev MSelectionList := List String

/-- Value handed to `MPxCommand::setResult`. -/
inductive CmdResult where
  | bool (b : Bool)
  | string (s : String)
  deriving DecidableEq, Repr

/-- Conversion `(int) x` of an unsigned size to a 32-bit `int` (two's complement wrap). -/
def toInt32 (n : Nat) : Int :=
  if n % 2 ^ 32 < 2 ^ 31 then ((n % 2 ^ 32 : Nat) : Int) else ((n % 2 ^ 32 : Nat) : Int) - 2 ^ 32

/-! ## Plugin types declared in `selection.h` and in headers outside `src/` -/

/-- Seed record `ComponentSelection` of `selection.h`. -/
structure ComponentSelection where
  edgeIndices : Int × Int
  faceIndices : Int × Int
  vertexIndices : Int × Int
  leftVertexIndex : Int := -1
  deriving DecidableEq, Repr

/-- Modelled from the spec: `PolySymmetryData` is declared in a header outside `src/`; the
command reads six integer vectors from it (symmetry and side of every edge, face and vertex). -/
structure PolySymmetryData where
  edgeSymmetryIndices : List Int
  faceSymmetryIndices : List Int
  vertexSymmetryIndices : List Int
  edgeSides : List Int
  faceSides : List Int
  vertexSides : List Int
  deriving DecidableEq, Repr

/-- Modelled from the spec: `MeshData` is declared in `meshData.h` (outside `src/`); the
command reads its three component counts. -/
structure MeshData where
  numberOfEdges : Int
  numberOfFaces : Int
  numberOfVertices : Int
  deriving DecidableEq, Repr

/-- Modelled from the spec: outcome of one propagation (`findSymmetricalVertices`, defined outside
`src/`): success, or one of the propagation failures of the error taxonomy. -/
inductive PropagationOutcome where
  | complete
  | inconsistentSymmetry
  | boundaryAsymmetry
  deriving DecidableEq, Repr

/-- Attributes of the result node written and read by the command. -/
inductive NodeAttr where
  | EDGE_SYMMETRY
  | FACE_SYMMETRY
  | VERTEX_SYMMETRY
  | EDGE_SIDES
  | FACE_SIDES
  | VERTEX_SIDES
  | NUMBER_OF_EDGES
  | NUMBER_OF_FACES
  | NUMBER_OF_VERTICES
  | VERTEX_CHECKSUM
  deriving DecidableEq, Repr

/-- Calls made on the symmetry data, in the order they happen (a ghost record kept beside the
command so that call order can be stated). -/
inductive EngineCall where
  | initializeData (mesh : MDagPath)
  | findSymmetricalVertices (s : ComponentSelection)
  | findVertexSides (leftSideVertexIndices : List Int)
  | finalizeSymmetry
  deriving DecidableEq, Repr

/-- The flag macros of `polySymmetryCmd.h` (outside `src/`). -/
inductive Flag where
  | SYMMETRY_COMPONENTS_FLAG
  | LEFT_SIDE_VERTEX_FLAG
  | CONSTRUCTION_HISTORY_FLAG
  | EXISTS_FLAG
  deriving DecidableEq, Repr

/-- Argument types of a flag (`MSyntax::MArgType`). -/
inductive MArgType where
  | kBoolean
  | kString
  deriving DecidableEq, Repr

/-- One `addFlag` of the command syntax. -/
structure FlagDecl where
  flag : Flag
  argTypes : List MArgType
  multiUse : Bool
  deriving DecidableEq, Repr

/-- Command syntax (`MSyntax`) as `getSyntax` fills it. -/
structure MSyntax where
  useSelectionAsDefault : Bool
  minObjects : Nat
  maxObjects : Nat
  enableQuery : Bool
  flags : List FlagDecl
  deriving DecidableEq, Repr

/-- Parsed command line (`MArgDatabase`): the answers of the queries the command asks of it. -/
structure MArgDatabase where
  status : MStatus
  isQuery : Bool
  existsFlagSet : Bool
  constructionHistoryFlagSet : MStatus × Bool
  constructionHistoryArgument : MStatus × Bool
  objects : MStatus × MSelectionList
  symmetryComponentsUses : List (MStatus × MArgList)
  leftSideVertexUses : List (MStatus × MArgList)

/-- Responses of the host and of the plugin code outside `src/`.  Functions that write through a
reference parameter take the old value and return the new one.  `flagArg` is the argument that
`MArgList::addArg` stores for a flag macro, `format fmt args` the status and the text of
`MString::format`, `getNodeFromCache` the lookup of `PolySymmetryCache`, and the four functions
from `initializeData` to `finalizeSymmetry` are the member functions of `PolySymmetryData`. -/
structure Maya where
  commandString : String
  NODE_NAME : String
  flagArg : Flag → MArg
  asString : MArg → MStatus × String
  selectionAdd : MSelectionList → String → MStatus × MSelectionList
  getDependNode : MSelectionList → Nat → MObject → MStatus × MObject
  getDagPath : MSelectionList → Nat → MDagPath → MStatus × MDagPath
  pop : MDagPath → MDagPath
  typeName : MObject → String
  nodeName : MObject → String
  format : String → List String → MStatus × String
  unpackMesh : MDagPath → MeshData → MeshData
  getVertexChecksum : MDagPath → Nat
  getSelectedComponents : MDagPath → MSelectionList → MSelectionList → MFnType → MSelectionList
  getSelectedComponentIndices : MSelectionList → List Int → MFnType → List Int
  getSymmetricalComponentSelection :
    MeshData → MSelectionList → ComponentSelection → Bool → Bool × ComponentSelection
  initializeData : MDagPath → PolySymmetryData → PolySymmetryData
  findSymmetricalVertices : ComponentSelection → PolySymmetryData → PolySymmetryData × PropagationOutcome
  findVertexSides : List Int → PolySymmetryData → PolySymmetryData
  finalizeSymmetry : PolySymmetryData → PolySymmetryData
  getNodeFromCache : MDagPath → MObject → Bool × MObject
  createNode : String → MObject × MStatus
  dgDoIt : MStatus
  renameNode : MObject → String → MStatus
  getValues : MObject → NodeAttr → List Int → MStatus × List Int
  setValues : MObject → NodeAttr → List Int → MStatus
  setValue : MObject → NodeAttr → Int → MStatus
  doFinalize : MArgList → MStatus
  deleteNode : MObject → MStatus

/-- The command object `PolySymmetryCommand`.  `result` is the value last given to `setResult`;
`engineCalls` and `cachedNodes` record the calls on the symmetry data and on the node cache. -/
structure PolySymmetryCommand where
  meshSymmetryNode : MObject
  meshData : MeshData
  meshSymmetryData : PolySymmetryData
  symmetryComponents : List ComponentSelection
  leftSideVertexIndices : List Int
  selectedMesh : MDagPath
  isQuery : Bool
  isQueryExists : Bool
  constructionHistory : Bool
  result : Option CmdResult
  engineCalls : List EngineCall
  cachedNodes : List MObject
  deriving DecidableEq

/-! ## Result text -/

/-- Modelled from the spec: default value of the parameter `isLast` of `setJSONData`, declared in
`polySymmetryCmd.h` (outside `src/`); the record of the spec separates the two arrays of a field by
a comma. -/
def isLastDefault : Bool := false

/-- `PolySymmetryCommand::setJSONData`.  The stream is the text written so far; reading `data[i]`
outside the vector has no defined result (`none`). -/
def setJSONData (key : String) (output : String) (data : List Int) (isLast : Bool) :
    Option String :=
  let numberOfItems : Int := toInt32 data.length
  let output := output ++ " \"" ++ key ++ "\"" ++ ": "
  let output := output ++ "["
  let body : Option String :=
    if numberOfItems > 0 then
      (List.range (numberOfItems - 1).toNat).foldlM
          (fun out i => (data[i]?).map (fun x => out ++ toString x ++ ", ")) output
        |>.bind (fun out => (data[(numberOfItems - 1).toNat]?).map (fun x => out ++ toString x))
    else some output
  body.map (fun output =>
    let output := output ++ "]"
    if !isLast then output ++ ", " else output)

/-- Text built by `PolySymmetryCommand::createResultString` (the argument of `setResult`). -/
def resultText (d : PolySymmetryData) : Option String :=
  let output := ""
  let output := output ++ "\x7b"
  let output := output ++ "\"e\": \x7b"
  (setJSONData "symmetry" output d.edgeSymmetryIndices isLastDefault).bind fun output =>
  (setJSONData "whichSide" output d.edgeSides true).bind fun output =>
  let output := output ++ "\x7d, "
  let output := output ++ "\"f\": \x7b"
  (setJSONData "symmetry" output d.faceSymmetryIndices isLastDefault).bind fun output =>
  (setJSONData "whichSide" output d.faceSides true).bind fun output =>
  let output := output ++ "\x7d, "
  let output := output ++ "\"vtx\": \x7b"
  (setJSONData "symmetry" output d.vertexSymmetryIndices isLastDefault).bind fun output =>
  (setJSONData "whichSide" output d.vertexSides true).bind fun output =>
  let output := output ++ "\x7d"
  let output := output ++ "\x7d"
  some output

/-- `PolySymmetryCommand::createResultString`. -/
def createResultString (c : PolySymmetryCommand) : Option (MStatus × PolySymmetryCommand) :=
  (resultText c.meshSymmetryData).map fun output =>
    (MStatus.kSuccess, { c with result := some (CmdResult.string output) })

/-- Step of the printing loop of `setJSONData`: one element followed by the separator. -/
def printItem (out : String) (x : Int) : String := out ++ toString x ++ ", "

/-! ## The command -/

/-- Constructor `PolySymmetryCommand()`.  The members it does not assign (`isQuery`,
`isQueryExists`, `constructionHistory`) and the default-constructed `MeshData()` and
`PolySymmetryData()` are declared outside `src/` and are taken as given. -/
def PolySymmetryCommand.new (meshData : MeshData) (meshSymmetryData : PolySymmetryData)
    (isQuery isQueryExists constructionHistory : Bool) : PolySymmetryCommand where
  meshSymmetryNode := MObject.null
  meshData := meshData
  meshSymmetryData := meshSymmetryData
  symmetryComponents := []
  leftSideVertexIndices := []
  selectedMesh := ⟨false, "", false, false⟩
  isQuery := isQuery
  isQueryExists := isQueryExists
  constructionHistory := constructionHistory
  result := none
  engineCalls := []
  cachedNodes := []

/-- `PolySymmetryCommand::getSyntax`. -/
def getSyntax : MSyntax where
  useSelectionAsDefault := true
  minObjects := 1
  maxObjects := 1
  enableQuery := true
  flags :=
    [ ⟨Flag.SYMMETRY_COMPONENTS_FLAG,
        [MArgType.kString, MArgType.kString, MArgType.kString,
         MArgType.kString, MArgType.kString, MArgType.kString], true⟩,
      ⟨Flag.LEFT_SIDE_VERTEX_FLAG, [MArgType.kString], true⟩,
      ⟨Flag.CONSTRUCTION_HISTORY_FLAG, [MArgType.kBoolean], false⟩,
      ⟨Flag.EXISTS_FLAG, [MArgType.kBoolean], false⟩ ]

/-- `PolySymmetryCommand::isUndoable`. -/
def isUndoable (c : PolySymmetryCommand) : Bool :=
  !c.meshSymmetryNode.isNull

/-- `PolySymmetryCommand::getFlagStringArguments`: every argument is read as a string, prefixed by
the mesh name when it holds no dot, and added to `selection`; the first failing read or add ends
the call with that status. -/
def getFlagStringArguments (maya : Maya) (c : PolySymmetryCommand) :
    MArgList → MSelectionList → MStatus × MSelectionList
  | [], selection => (MStatus.kSuccess, selection)
  | arg :: args, selection =>
    let mesh := c.selectedMesh.partialPathName
    let read := maya.asString arg
    if !read.1.ok then (read.1, selection) else
    let obj := if read.2.toList.contains '.' then read.2 else mesh ++ "." ++ read.2
    let added := maya.selectionAdd selection obj
    if !added.1.ok then (added.1, added.2) else
    getFlagStringArguments maya c args added.2

/-- The `for` loop of `getSymmetryComponents` over the uses of the symmetry-components flag.  A
status that is not `kSuccess` is an early `return`. -/
def getSymmetryComponentsLoop (maya : Maya) :
    List (MStatus × MArgList) → PolySymmetryCommand → MStatus × PolySymmetryCommand
  | [], c => (MStatus.kSuccess, c)
  | use :: uses, c =>
    if !use.1.ok then (use.1, c) else
    let read := getFlagStringArguments maya c use.2 []
    if !read.1.ok then (read.1, c) else
    let selection := read.2
    let scs : ComponentSelection := ⟨(0, 0), (0, 0), (0, 0), -1⟩
    let filteredSelection : MSelectionList := []
    let filteredSelection := maya.getSelectedComponents c.selectedMesh selection
      filteredSelection MFnType.kMeshEdgeComponent
    let filteredSelection := maya.getSelectedComponents c.selectedMesh selection
      filteredSelection MFnType.kMeshVertComponent
    let filteredSelection := maya.getSelectedComponents c.selectedMesh selection
      filteredSelection MFnType.kMeshPolygonComponent
    let valid := maya.getSymmetricalComponentSelection c.meshData filteredSelection scs false
    if valid.1 then
      getSymmetryComponentsLoop maya uses
        { c with symmetryComponents := c.symmetryComponents ++ [valid.2] }
    else (MStatus.kFailure, c)

/-- `PolySymmetryCommand::getSymmetryComponents`. -/
def getSymmetryComponents (maya : Maya) (argsData : MArgDatabase) (c : PolySymmetryCommand) :
    MStatus × PolySymmetryCommand :=
  let r := getSymmetryComponentsLoop maya argsData.symmetryComponentsUses c
  if !r.1.ok then r else
  if r.2.symmetryComponents.isEmpty then (MStatus.kFailure, r.2) else
  (MStatus.kSuccess, r.2)

/-- The `for` loop of `getLeftSideVertexIndices` over the uses of the left-side-vertex flag: a
failing `getFlagArgumentList` is an early `return`; the status of `getFlagStringArguments` is
assigned and never tested. -/
def getLeftSideVertexIndicesLoop (maya : Maya) (c : PolySymmetryCommand) :
    List (MStatus × MArgList) → MSelectionList → MStatus × MSelectionList
  | [], selection => (MStatus.kSuccess, selection)
  | use :: uses, selection =>
    if !use.1.ok then (use.1, selection) else
    getLeftSideVertexIndicesLoop maya c uses (getFlagStringArguments maya c use.2 selection).2

/-- `PolySymmetryCommand::getLeftSideVertexIndices`. -/
def getLeftSideVertexIndices (maya : Maya) (argsData : MArgDatabase) (c : PolySymmetryCommand) :
    MStatus × PolySymmetryCommand :=
  let r := getLeftSideVertexIndicesLoop maya c argsData.leftSideVertexUses []
  if !r.1.ok then (r.1, c) else
  let c := { c with leftSideVertexIndices :=
    maya.getSelectedComponentIndices r.2 c.leftSideVertexIndices MFnType.kMeshVertComponent }
  if c.leftSideVertexIndices.isEmpty then (MStatus.kFailure, c) else
  (MStatus.kSuccess, c)

/-- `PolySymmetryCommand::getSelectedMesh`. -/
def getSelectedMesh (maya : Maya) (argsData : MArgDatabase) (c : PolySymmetryCommand) :
    MStatus × PolySymmetryCommand :=
  let status := argsData.objects.1
  let selection := argsData.objects.2
  if !status.ok then (status, c) else
  let got := maya.getDagPath selection 0 c.selectedMesh
  let c := { c with selectedMesh := got.2 }
  if !got.1.ok || !c.selectedMesh.hasFnMesh then (MStatus.kFailure, c) else
  let c := { c with meshData := maya.unpackMesh c.selectedMesh c.meshData }
  let c := if c.selectedMesh.nodeHasFnMesh then { c with selectedMesh := maya.pop c.selectedMesh }
    else c
  (MStatus.kSuccess, c)

/-- `PolySymmetryCommand::parseArguments`. -/
def parseArguments (maya : Maya) (argsData : MArgDatabase) (c : PolySymmetryCommand) :
    MStatus × PolySymmetryCommand :=
  let status := argsData.constructionHistoryFlagSet.1
  let constructionHistoryFlagSet := argsData.constructionHistoryFlagSet.2
  if !status.ok then (status, c) else
  let r : MStatus × PolySymmetryCommand :=
    if constructionHistoryFlagSet then
      (argsData.constructionHistoryArgument.1,
        { c with constructionHistory := argsData.constructionHistoryArgument.2 })
    else (MStatus.kSuccess, { c with constructionHistory := true })
  if !r.1.ok then r else
  let r := getSelectedMesh maya argsData r.2
  if !r.1.ok then r else
  let r := getSymmetryComponents maya argsData r.2
  if !r.1.ok then r else
  let r := getLeftSideVertexIndices maya argsData r.2
  if !r.1.ok then r else
  (MStatus.kSuccess, r.2)

/-- `PolySymmetryCommand::parseQueryArguments`. -/
def parseQueryArguments (maya : Maya) (argsData : MArgDatabase) (c : PolySymmetryCommand) :
    MStatus × PolySymmetryCommand :=
  let c := { c with isQuery := true, isQueryExists := argsData.existsFlagSet }
  let status := argsData.objects.1
  let selection := argsData.objects.2
  if !status.ok then (status, c) else
  let node := maya.getDependNode selection 0 MObject.null
  if !node.1.ok then (node.1, c) else
  let obj := node.2
  let objectType := maya.typeName obj
  if objectType = maya.NODE_NAME then (MStatus.kSuccess, { c with meshSymmetryNode := obj }) else
  let got := maya.getDagPath selection 0 ⟨false, "", false, false⟩
  let dagPath := got.2
  if got.1.ok && dagPath.hasFnMesh then (MStatus.kSuccess, { c with selectedMesh := dagPath }) else
  (MStatus.kFailure, c)

/-- One `PolySymmetryNode::getValues` of `getSymmetricalComponentsFromNode`: the vector is
replaced by what the node holds. -/
def readValues (maya : Maya) (attr : NodeAttr) (get : PolySymmetryData → List Int)
    (set : PolySymmetryData → List Int → PolySymmetryData)
    (r : MStatus × PolySymmetryCommand) : MStatus × PolySymmetryCommand :=
  if !r.1.ok then r else
  let read := maya.getValues r.2.meshSymmetryNode attr (get r.2.meshSymmetryData)
  (read.1, { r.2 with meshSymmetryData := set r.2.meshSymmetryData read.2 })

/-- `PolySymmetryCommand::getSymmetricalComponentsFromNode`: six reads, the first failing one
ends the call with its status. -/
def getSymmetricalComponentsFromNode (maya : Maya) (c : PolySymmetryCommand) :
    MStatus × PolySymmetryCommand :=
  let r := (MStatus.kSuccess, c)
  let r := readValues maya NodeAttr.EDGE_SYMMETRY (fun d => d.edgeSymmetryIndices)
    (fun d v => { d with edgeSymmetryIndices := v }) r
  let r := readValues maya NodeAttr.FACE_SYMMETRY (fun d => d.faceSymmetryIndices)
    (fun d v => { d with faceSymmetryIndices := v }) r
  let r := readValues maya NodeAttr.VERTEX_SYMMETRY (fun d => d.vertexSymmetryIndices)
    (fun d v => { d with vertexSymmetryIndices := v }) r
  let r := readValues maya NodeAttr.EDGE_SIDES (fun d => d.edgeSides)
    (fun d v => { d with edgeSides := v }) r
  let r := readValues maya NodeAttr.FACE_SIDES (fun d => d.faceSides)
    (fun d v => { d with faceSides := v }) r
  let r := readValues maya NodeAttr.VERTEX_SIDES (fun d => d.vertexSides)
    (fun d v => { d with vertexSides := v }) r
  if !r.1.ok then r else (MStatus.kSuccess, r.2)

/-- `PolySymmetryCommand::getSymmetricalComponentsFromScene`.  Nothing the three calls on the
symmetry data return is used; the function ends with `return MStatus::kSuccess`. -/
def getSymmetricalComponentsFromScene (maya : Maya) (c : PolySymmetryCommand) :
    MStatus × PolySymmetryCommand :=
  let c := c.symmetryComponents.foldl (fun (c : PolySymmetryCommand) s =>
    { c with
      meshSymmetryData := (maya.findSymmetricalVertices s c.meshSymmetryData).1
      engineCalls := c.engineCalls ++ [EngineCall.findSymmetricalVertices s] }) c
  let c := { c with
    meshSymmetryData := maya.findVertexSides c.leftSideVertexIndices c.meshSymmetryData
    engineCalls := c.engineCalls ++ [EngineCall.findVertexSides c.leftSideVertexIndices] }
  let c := { c with
    meshSymmetryData := maya.finalizeSymmetry c.meshSymmetryData
    engineCalls := c.engineCalls ++ [EngineCall.finalizeSymmetry] }
  (MStatus.kSuccess, c)

/-- The statuses `createResultNode` tests after the node exists, in order: `dgModifier.doIt`,
`renameNode`, six `setValues`, four `setValue`. -/
def createResultNodeSteps (maya : Maya) (c : PolySymmetryCommand) : List MStatus :=
  let node := c.meshSymmetryNode
  [ maya.dgDoIt,
    maya.renameNode node (c.selectedMesh.partialPathName ++ "Symmetry"),
    maya.setValues node NodeAttr.EDGE_SYMMETRY c.meshSymmetryData.edgeSymmetryIndices,
    maya.setValues node NodeAttr.FACE_SYMMETRY c.meshSymmetryData.faceSymmetryIndices,
    maya.setValues node NodeAttr.VERTEX_SYMMETRY c.meshSymmetryData.vertexSymmetryIndices,
    maya.setValues node NodeAttr.EDGE_SIDES c.meshSymmetryData.edgeSides,
    maya.setValues node NodeAttr.FACE_SIDES c.meshSymmetryData.faceSides,
    maya.setValues node NodeAttr.VERTEX_SIDES c.meshSymmetryData.vertexSides,
    maya.setValue node NodeAttr.NUMBER_OF_EDGES c.meshData.numberOfEdges,
    maya.setValue node NodeAttr.NUMBER_OF_FACES c.meshData.numberOfFaces,
    maya.setValue node NodeAttr.NUMBER_OF_VERTICES c.meshData.numberOfVertices,
    maya.setValue node NodeAttr.VERTEX_CHECKSUM (toInt32 (maya.getVertexChecksum c.selectedMesh)) ]

/-- `PolySymmetryCommand::createResultNode`. -/
def createResultNode (maya : Maya) (c : PolySymmetryCommand) : MStatus × PolySymmetryCommand :=
  let created := maya.createNode maya.NODE_NAME
  let c := { c with meshSymmetryNode := created.1 }
  if !created.2.ok then (created.2, c) else
  match (createResultNodeSteps maya c).find? (fun status => !status.ok) with
  | some status => (status, c)
  | none =>
    let c := { c with result := some (CmdResult.string (maya.nodeName c.meshSymmetryNode)) }
    let c := { c with cachedNodes := c.cachedNodes ++ [c.meshSymmetryNode] }
    (MStatus.kSuccess, c)

/-- `PolySymmetryCommand::doQueryDataAction`. -/
def doQueryDataAction (maya : Maya) (c : PolySymmetryCommand) :
    Option (MStatus × PolySymmetryCommand) :=
  let r := getSymmetricalComponentsFromNode maya c
  if !r.1.ok then some r else
  (createResultString r.2).map fun done => (MStatus.kSuccess, done.2)

/-- `PolySymmetryCommand::doQueryMeshAction`. -/
def doQueryMeshAction (maya : Maya) (c : PolySymmetryCommand) : MStatus × PolySymmetryCommand :=
  let looked := maya.getNodeFromCache c.selectedMesh c.meshSymmetryNode
  let cacheHit := looked.1
  let c := { c with meshSymmetryNode := looked.2 }
  if c.isQueryExists then
    (MStatus.kSuccess, { c with result := some (CmdResult.bool cacheHit) })
  else if cacheHit then
    let resultName := maya.nodeName c.meshSymmetryNode
    (MStatus.kSuccess, { c with result := some (CmdResult.string resultName) })
  else
    (MStatus.kSuccess, c)

/-- `PolySymmetryCommand::doUndoableCommand`. -/
def doUndoableCommand (maya : Maya) (c : PolySymmetryCommand) :
    Option (MStatus × PolySymmetryCommand) :=
  let r := getSymmetricalComponentsFromScene maya c
  if !r.1.ok then some r else
  if r.2.constructionHistory then
    let made := createResultNode maya r.2
    if !made.1.ok then some made else some (MStatus.kSuccess, made.2)
  else
    (createResultString r.2).map fun done => (MStatus.kSuccess, done.2)

/-- `PolySymmetryCommand::redoIt`. -/
def redoIt (maya : Maya) (c : PolySymmetryCommand) : Option (MStatus × PolySymmetryCommand) :=
  if c.isQuery then
    if c.selectedMesh.isValid then some (doQueryMeshAction maya c)
    else doQueryDataAction maya c
  else doUndoableCommand maya c

/-- `PolySymmetryCommand::doIt`, from the parsed command line on. -/
def doIt (maya : Maya) (argsData : MArgDatabase) (c : PolySymmetryCommand) :
    Option (MStatus × PolySymmetryCommand) :=
  if !argsData.status.ok then some (argsData.status, c) else
  if argsData.isQuery then
    let r := parseQueryArguments maya argsData c
    if !r.1.ok then some r else redoIt maya r.2
  else
    let r := parseArguments maya argsData c
    if !r.1.ok then some r else
    let c := r.2
    let c := { c with
      meshSymmetryData := maya.initializeData c.selectedMesh c.meshSymmetryData
      engineCalls := c.engineCalls ++ [EngineCall.initializeData c.selectedMesh] }
    redoIt maya c

/-- `PolySymmetryCommand::undoIt`. -/
def undoIt (maya : Maya) (c : PolySymmetryCommand) : MStatus × PolySymmetryCommand :=
  let status := maya.deleteNode c.meshSymmetryNode
  if !status.ok then (status, c) else (MStatus.kSuccess, c)

/-- The call `MString(receiver).format(fmt, args…)` of the host string class: `format` takes the
format text as its first parameter (so do the two other calls of the file,
`warningMsg.format(warningMsg, name)` and `errorMsg.format(errorMsg, NODE_NAME, objectType)`),
writes the formatted text into the receiver and returns an `MStatus`.  The pair is the returned
status and the new text of the receiver. -/
def MString.format (maya : Maya) (_receiver : String) (fmt : String) (args : List String) :
    MStatus × String :=
  maya.format fmt args

/-- `MArgList::addArg` applied to the value of a `format` call: that value is the returned
`MStatus`, which reaches `addArg` through `operator bool`. -/
def addFormatArg (maya : Maya) (command : MArgList) (receiver : String) (i : Int) : MArgList :=
  command ++ [MArg.bool (MString.format maya receiver (toString i) []).1.ok]

/-- The argument list `PolySymmetryCommand::finalize` builds, and the status of `doFinalize`. -/
def finalize (maya : Maya) (c : PolySymmetryCommand) : MStatus × MArgList :=
  let command : MArgList := []
  let command := command ++ [MArg.string maya.commandString]
  let command := c.symmetryComponents.foldl (fun command cs =>
    let command := command ++ [maya.flagArg Flag.SYMMETRY_COMPONENTS_FLAG]
    let command := addFormatArg maya command "e[^1s]" cs.edgeIndices.1
    let command := addFormatArg maya command "e[^1s]" cs.edgeIndices.2
    let command := addFormatArg maya command "f[^1s]" cs.faceIndices.1
    let command := addFormatArg maya command "f[^1s]" cs.faceIndices.2
    let command := addFormatArg maya command "vtx[^1s]" cs.vertexIndices.1
    let command := addFormatArg maya command "vtx[^1s]" cs.vertexIndices.2
    command) command
  let command := c.leftSideVertexIndices.foldl (fun command i =>
    let command := command ++ [maya.flagArg Flag.LEFT_SIDE_VERTEX_FLAG]
    let command := addFormatArg maya command "vtx[^1s]" i
    command) command
  let command := command ++ [MArg.string c.selectedMesh.partialPathName]
  (maya.doFinalize command, command)

/-! ## Text of the record as the specification words it -/

/-- An array of the record: the decimal values in index order, separated by a comma and a blank,
between square brackets. -/
def arrayText (data : List Int) : String :=
  "[" ++ String.intercalate ", " (data.map toString) ++ "]"

/-- One field of the record: the quoted field name, then the `symmetry` array followed by the
`whichSide` array, with the blanks `setJSONData` writes before each key. -/
def fieldText (name : String) (symmetry whichSide : List Int) : String :=
  "\"" ++ name ++ "\": \x7b"
    ++ " \"symmetry\": " ++ arrayText symmetry ++ ", "
    ++ " \"whichSide\": " ++ arrayText whichSide
    ++ "\x7d"

/-- The record: the three fields in the order edge, face, vertex. -/
def recordText (d : PolySymmetryData) : String :=
  "\x7b" ++ fieldText "e" d.edgeSymmetryIndices d.edgeSides ++ ", "
    ++ fieldText "f" d.faceSymmetryIndices d.faceSides ++ ", "
    ++ fieldText "vtx" d.vertexSymmetryIndices d.vertexSides ++ "\x7d"

/-- Every vector of the symmetry data has a size that an `int` holds (component counts of a mesh
are `int` values). -/
def PolySymmetryData.sizesFitInt (d : PolySymmetryData) : Prop :=
  d.edgeSymmetryIndices.length < 2 ^ 31 ∧ d.edgeSides.length < 2 ^ 31 ∧
  d.faceSymmetryIndices.length < 2 ^ 31 ∧ d.faceSides.length < 2 ^ 31 ∧
  d.vertexSymmetryIndices.length < 2 ^ 31 ∧ d.vertexSides.length < 2 ^ 31

/-- The vertex field as the example of the specification prints it. -/
def specExampleVertexField : String :=
  "\"vtx\": \x7b\"symmetry\": [1, 0, 2, 3], \"whichSide\": [0, 1, 2, 2]\x7d"

/-- Symmetry data of a shell of two triangles `(0,2,3)` and `(1,3,2)` joined along the edge
`(2,3)`: vertices 0 and 1 mirror each other, vertices 2 and 3 lie on the seam. -/
def twoTriangles : PolySymmetryData where
  edgeSymmetryIndices := [3, 4, 2, 0, 1]
  faceSymmetryIndices := [1, 0]
  vertexSymmetryIndices := [1, 0, 2, 3]
  edgeSides := [0, 0, 2, 1, 1]
  faceSides := [0, 1]
  vertexSides := [0, 1, 2, 2]

/-! ## A small host, for concrete runs -/

/-- Decimal index between the brackets of a component name such as `pPlane1.vtx[12]`. -/
def componentIndex (name : String) : Int :=
  (((name.toList.dropWhile (fun ch => ch != '[')).drop 1).takeWhile (fun ch => ch != ']')).foldl
    (fun n ch => 10 * n + ((ch.toNat : Int) - 48)) 0

/-- Kind of the component a name such as `pPlane1.e[3]` denotes, read off the letter after the
dot. -/
def componentKind (name : String) : Option MFnType :=
  match (name.toList.dropWhile (fun ch => ch != '.')).drop 1 with
  | 'e' :: _ => some MFnType.kMeshEdgeComponent
  | 'f' :: _ => some MFnType.kMeshPolygonComponent
  | 'v' :: _ => some MFnType.kMeshVertComponent
  | _ => none

/-- The seed of the two-triangle shell: edges 0 and 3, faces 0 and 1, vertices 0 and 1. -/
def twoTrianglesSeed : ComponentSelection := ⟨(0, 3), (0, 1), (0, 1), -1⟩

/-- Symmetry data before any propagation on the two-triangle mesh: no component has a mirror. -/
def unset : PolySymmetryData where
  edgeSymmetryIndices := [-1, -1, -1, -1, -1]
  faceSymmetryIndices := [-1, -1]
  vertexSymmetryIndices := [-1, -1, -1, -1]
  edgeSides := [-1, -1, -1, -1, -1]
  faceSides := [-1, -1]
  vertexSides := [-1, -1, -1, -1]

/-- A host with one mesh `pPlane1` (shape `pPlaneShape1`) holding the two-triangle shell.  Names
resolve when they denote a component of `pPlane1`; the propagation completes for
`twoTrianglesSeed` and reports an inconsistent symmetry for every other seed, leaving the data as
it was; the node cache is empty. -/
def exampleHost : Maya where
  commandString := "polySymmetry"
  NODE_NAME := "polySymmetryData"
  flagArg := fun
    | Flag.SYMMETRY_COMPONENTS_FLAG => MArg.string "-symmetry"
    | Flag.LEFT_SIDE_VERTEX_FLAG => MArg.string "-leftSideVertex"
    | Flag.CONSTRUCTION_HISTORY_FLAG => MArg.string "-constructionHistory"
    | Flag.EXISTS_FLAG => MArg.string "-exists"
  asString := fun
    | MArg.string s => (MStatus.kSuccess, s)
    | _ => (MStatus.kFailure, "")
  selectionAdd := fun selection name =>
    if "pPlane1.".toList.isPrefixOf name.toList && (componentKind name).isSome then
      (MStatus.kSuccess, selection ++ [name])
    else (MStatus.kNotFound, selection)
  getDependNode := fun _ _ _ => (MStatus.kSuccess, ⟨some 0⟩)
  getDagPath := fun _ _ _ => (MStatus.kSuccess, ⟨true, "pPlaneShape1", true, true⟩)
  pop := fun _ => ⟨true, "pPlane1", true, false⟩
  typeName := fun _ => "mesh"
  nodeName := fun _ => "pPlane1Symmetry"
  format := fun fmt _ => (MStatus.kSuccess, fmt)
  unpackMesh := fun _ _ => ⟨5, 2, 4⟩
  getVertexChecksum := fun _ => 6
  getSelectedComponents := fun _ selection filtered kind =>
    filtered ++ selection.filter (fun name => componentKind name == some kind)
  getSelectedComponentIndices := fun selection indices kind =>
    indices ++ (selection.filter (fun name => componentKind name == some kind)).map componentIndex
  getSymmetricalComponentSelection := fun _ filtered scs _ =>
    match filtered.map componentIndex with
    | [e0, e1, v0, v1, f0, f1] => (true, ⟨(e0, e1), (f0, f1), (v0, v1), -1⟩)
    | _ => (false, scs)
  initializeData := fun _ _ => unset
  findSymmetricalVertices := fun s d =>
    if s = twoTrianglesSeed then
      ({ d with
          edgeSymmetryIndices := twoTriangles.edgeSymmetryIndices
          faceSymmetryIndices := twoTriangles.faceSymmetryIndices
          vertexSymmetryIndices := twoTriangles.vertexSymmetryIndices },
        PropagationOutcome.complete)
    else (d, PropagationOutcome.inconsistentSymmetry)
  findVertexSides := fun leftSideVertexIndices d =>
    if leftSideVertexIndices = [0] ∧ d.vertexSymmetryIndices = twoTriangles.vertexSymmetryIndices
    then { d with vertexSides := twoTriangles.vertexSides }
    else d
  finalizeSymmetry := fun d =>
    if d.vertexSides = twoTriangles.vertexSides then
      { d with edgeSides := twoTriangles.edgeSides, faceSides := twoTriangles.faceSides }
    else d
  getNodeFromCache := fun _ node => (false, node)
  createNode := fun _ => (⟨some 1⟩, MStatus.kSuccess)
  dgDoIt := MStatus.kSuccess
  renameNode := fun _ _ => MStatus.kSuccess
  getValues := fun _ _ values => (MStatus.kSuccess, values)
  setValues := fun _ _ _ => MStatus.kSuccess
  setValue := fun _ _ _ => MStatus.kSuccess
  doFinalize := fun _ => MStatus.kSuccess
  deleteNode := fun _ => MStatus.kSuccess

/-- A command on `pPlane1`, parsed without construction history, whose single seed pairs edge 0
with edge 1: the two edges both lie on the left triangle, so the propagation of `exampleHost`
fails on it. -/
def asymmetricSeedCommand : PolySymmetryCommand :=
  { PolySymmetryCommand.new ⟨5, 2, 4⟩ unset false false false with
    selectedMesh := ⟨true, "pPlane1", true, false⟩
    symmetryComponents := [⟨(0, 1), (0, 1), (0, 1), -1⟩]
    leftSideVertexIndices := [0] }

/-- The members that argument parsing after the construction-history flag leaves alone. -/
def Frame (c c' : PolySymmetryCommand) : Prop :=
  c'.meshSymmetryNode = c.meshSymmetryNode ∧ c'.meshSymmetryData = c.meshSymmetryData
    ∧ c'.isQuery = c.isQuery ∧ c'.isQueryExists = c.isQueryExists
    ∧ c'.constructionHistory = c.constructionHistory ∧ c'.result = c.result
    ∧ c'.engineCalls = c.engineCalls ∧ c'.cachedNodes = c.cachedNodes

/-- Non-query command line on `pPlane1` without any use of the symmetry-components flag. -/
def noSeedArgs : MArgDatabase where
  status := MStatus.kSuccess
  isQuery := false
  existsFlagSet := false
  constructionHistoryFlagSet := (MStatus.kSuccess, false)
  constructionHistoryArgument := (MStatus.kSuccess, false)
  objects := (MStatus.kSuccess, ["pPlane1"])
  symmetryComponentsUses := []
  leftSideVertexUses := [(MStatus.kSuccess, [MArg.string "vtx[0]"])]

/-- Non-query command line on `pPlane1` with the seed of the two-triangle shell, two uses of the
left-side-vertex flag of which the second names nothing, and construction history switched off. -/
def seedArgs : MArgDatabase where
  status := MStatus.kSuccess
  isQuery := false
  existsFlagSet := false
  constructionHistoryFlagSet := (MStatus.kSuccess, true)
  constructionHistoryArgument := (MStatus.kSuccess, false)
  objects := (MStatus.kSuccess, ["pPlane1"])
  symmetryComponentsUses :=
    [(MStatus.kSuccess, [MArg.string "e[0]", MArg.string "e[3]", MArg.string "f[0]",
        MArg.string "f[1]", MArg.string "vtx[0]", MArg.string "vtx[1]"])]
  leftSideVertexUses :=
    [(MStatus.kSuccess, [MArg.string "vtx[0]"]), (MStatus.kSuccess, [MArg.string "nothing"])]

/-- A freshly constructed command. -/
def freshCommand : PolySymmetryCommand :=
  PolySymmetryCommand.new ⟨0, 0, 0⟩ ⟨[], [], [], [], [], []⟩ false false true

/-- The command line of `seedArgs` without the construction-history flag. -/
def historyArgs : MArgDatabase :=
  { seedArgs with constructionHistoryFlagSet := (MStatus.kSuccess, false) }

/-- The command after `doIt` on `seedArgs`: the record is the result, no node is held. -/
def afterRunWithoutHistory : PolySymmetryCommand :=
  { freshCommand with
    constructionHistory := false
    selectedMesh := ⟨true, "pPlane1", true, false⟩
    meshData := ⟨5, 2, 4⟩
    symmetryComponents := [twoTrianglesSeed]
    leftSideVertexIndices := [0]
    meshSymmetryData := twoTriangles
    result := some (CmdResult.string
      ("\x7b\"e\": \x7b \"symmetry\": [3, 4, 2, 0, 1],  \"whichSide\": [0, 0, 2, 1, 1]\x7d, "
        ++ "\"f\": \x7b \"symmetry\": [1, 0],  \"whichSide\": [0, 1]\x7d, "
        ++ "\"vtx\": \x7b \"symmetry\": [1, 0, 2, 3],  \"whichSide\": [0, 1, 2, 2]\x7d\x7d"))
    engineCalls :=
      [EngineCall.initializeData ⟨true, "pPlane1", true, false⟩,
       EngineCall.findSymmetricalVertices twoTrianglesSeed,
       EngineCall.findVertexSides [0], EngineCall.finalizeSymmetry] }

/-- The command after `doIt` on `historyArgs`: the created node is held and named as result. -/
def afterRunWithHistory : PolySymmetryCommand :=
  { afterRunWithoutHistory with
    constructionHistory := true
    meshSymmetryNode := ⟨some 1⟩
    result := some (CmdResult.string "pPlane1Symmetry")
    cachedNodes := [⟨some 1⟩] }

/-- A command holding the seed of the two-triangle shell and the left-side vertex 0. -/
def seededCommand : PolySymmetryCommand :=
  { freshCommand with
    selectedMesh := ⟨true, "pPlane1", true, false⟩
    symmetryComponents := [twoTrianglesSeed]
    leftSideVertexIndices := [0] }

/-- The host `exampleHost` with a node cached for every mesh. -/
def cachedHost : Maya :=
  { exampleHost with getNodeFromCache := fun _ _ => (true, ⟨some 1⟩) }

/-- A command parsed in query mode on the mesh `pPlane1` with the exists flag. -/
def existsQueryCommand : PolySymmetryCommand :=
  { freshCommand with
    isQuery := true
    isQueryExists := true
    selectedMesh := ⟨true, "pPlane1", true, false⟩ }

/-- The command `freshCommand` after the mesh `pPlane1` was selected. -/
def meshCommand : PolySymmetryCommand :=
  { freshCommand with selectedMesh := ⟨true, "pPlane1", true, false⟩ }

/-- The command line of `seedArgs` whose only left-side vertex name resolves to nothing. -/
def unresolvedLeftArgs : MArgDatabase :=
  { seedArgs with leftSideVertexUses := [(MStatus.kSuccess, [MArg.string "nothing"])] }

/-! ## Theorems -/

theorem toInt32_of_lt {n : Nat} (h : n < 2 ^ 31) : toInt32 n = (n : Int) := by
  unfold toInt32
  have h1 : n % 2 ^ 32 = n := Nat.mod_eq_of_lt (by omega)
  rw [h1, if_pos h]

theorem toInt32_le (n : Nat) : toInt32 n ≤ (n : Int) := by
  unfold toInt32
  have h1 : n % 2 ^ 32 ≤ n := Nat.mod_le _ _
  split <;> omega

theorem intercalate_go_append (sep p acc : String) (l : List String) :
    String.intercalate.go (p ++ acc) sep l = p ++ String.intercalate.go acc sep l := by
  induction l generalizing acc with
  | nil => simp [String.intercalate.go]
  | cons a l ih =>
    simp only [String.intercalate.go]
    rw [String.append_assoc, String.append_assoc, ← String.append_assoc acc, ih]

theorem intercalate_cons_cons (sep a b : String) (l : List String) :
    String.intercalate sep (a :: b :: l) = a ++ sep ++ String.intercalate sep (b :: l) := by
  simp only [String.intercalate, String.intercalate.go]
  exact intercalate_go_append sep (a ++ sep) b l

/-- The loop of `setJSONData` over the first `k` indices reads inside the vector and appends the
first `k` elements, each followed by the separator. -/
theorem range_foldlM_eq (data : List Int) (out : String) (k : Nat) (hk : k ≤ data.length) :
    (List.range k).foldlM (fun out i => (data[i]?).map (fun x => out ++ toString x ++ ", ")) out
      = some ((data.take k).foldl printItem out) := by
  induction k with
  | zero => rfl
  | succ k ih =>
    have hk' : k < data.length := hk
    rw [List.range_succ, List.foldlM_append, ih (by omega)]
    rw [List.take_succ, List.foldl_append]
    simp only [Option.some_bind, List.foldlM_cons, List.foldlM_nil, List.getElem?_eq_getElem hk',
      Option.map_some', Option.toList_some, List.foldl_cons, List.foldl_nil, printItem,
      Option.bind_eq_bind, bind_pure, pure]

theorem foldl_printItem_last (l : List Int) (x : Int) (out : String) :
    l.foldl printItem out ++ toString x
      = out ++ String.intercalate ", " ((l ++ [x]).map toString) := by
  induction l generalizing out with
  | nil => simp [String.intercalate, String.intercalate.go]
  | cons a l ih =>
    rw [List.foldl_cons, ih]
    cases l with
    | nil =>
      simp only [List.nil_append, List.cons_append, List.map_cons, List.map_nil,
        intercalate_cons_cons, printItem]
      simp only [String.append_assoc]
    | cons b m =>
      simp only [List.cons_append, List.map_cons, intercalate_cons_cons _ (toString a), printItem]
      simp only [String.append_assoc]

theorem getElem?_length_cons (a : Int) (l : List Int) :
    (a :: l)[l.length]? = some ((a :: l).getLast (List.cons_ne_nil a l)) := by
  rw [List.getLast_eq_getElem, List.getElem?_eq_getElem (by simp)]
  simp

/-- No read of `setJSONData` leaves the vector, whatever its size. -/
theorem setJSONData_isSome (key output : String) (data : List Int) (isLast : Bool) :
    (setJSONData key output data isLast).isSome = true := by
  unfold setJSONData
  have hle := toInt32_le data.length
  simp only [Option.isSome_map']
  split
  · rename_i hpos
    have hk : (toInt32 data.length - 1).toNat < data.length := by omega
    rw [range_foldlM_eq data _ _ (Nat.le_of_lt hk)]
    simp only [Option.some_bind, List.getElem?_eq_getElem hk, Option.map_some', Option.isSome_some]
  · rfl

/-- What `setJSONData` appends, in terms of `arrayText`. -/
theorem setJSONData_eq (key output : String) (data : List Int) (isLast : Bool)
    (hsize : data.length < 2 ^ 31) :
    setJSONData key output data isLast
      = some (output ++ " \"" ++ key ++ "\"" ++ ": " ++ arrayText data
          ++ (if isLast = false then ", " else "")) := by
  unfold setJSONData arrayText
  rw [toInt32_of_lt hsize]
  cases data with
  | nil => cases isLast <;> simp [String.intercalate, String.append_assoc]
  | cons a l =>
    have hk : ((((a :: l).length : Nat) : Int) - 1).toNat = l.length := by simp
    have hpos : (((a :: l).length : Nat) : Int) > 0 := by simp
    simp only []
    rw [if_pos hpos, hk, range_foldlM_eq (a :: l) _ _ (by simp)]
    rw [Option.some_bind, getElem?_length_cons, Option.map_some', Option.map_some']
    have hsplit : a :: l = (a :: l).take l.length ++ [(a :: l).getLast (List.cons_ne_nil a l)] := by
      have := List.dropLast_append_getLast (List.cons_ne_nil a l)
      rw [List.dropLast_eq_take] at this
      simpa using this.symm
    rw [foldl_printItem_last, ← hsplit]
    cases isLast <;> simp [String.append_assoc] <;> rfl

/-- The text of `createResultString` is the record of the specification. -/
theorem resultText_eq (d : PolySymmetryData) (h : d.sizesFitInt) :
    resultText d = some (recordText d) := by
  obtain ⟨h1, h2, h3, h4, h5, h6⟩ := h
  unfold resultText recordText fieldText isLastDefault
  simp only [setJSONData_eq _ _ _ _ h1, setJSONData_eq _ _ _ _ h2, setJSONData_eq _ _ _ _ h3,
    setJSONData_eq _ _ _ _ h4, setJSONData_eq _ _ _ _ h5, setJSONData_eq _ _ _ _ h6,
    Option.some_bind, if_true, Bool.true_eq_false, if_false, String.append_assoc,
    String.empty_append, String.append_empty]
  rfl

/-- The vectors of `twoTriangles` have sizes an `int` holds. -/
theorem twoTriangles_sizesFitInt : twoTriangles.sizesFitInt := by
  unfold PolySymmetryData.sizesFitInt twoTriangles
  decide

/-! ### C8 -/

/-- C8: for every key, every vector `data` whose size an `int` holds and every `isLast`,
`setJSONData` reads no index outside the vector and appends exactly a blank, the key in double
quotes, a colon and a blank, an opening bracket, the decimal values of `data` in index order
joined by a comma and a blank (nothing for an empty vector), a closing bracket, and then a comma
and a blank exactly when `isLast` is false. -/
theorem setJSONData_appends (key output : String) (data : List Int) (isLast : Bool)
    (hsize : data.length < 2 ^ 31) :
    setJSONData key output data isLast
      = some (output ++ " " ++ "\"" ++ key ++ "\"" ++ ": " ++ "["
          ++ String.intercalate ", " (data.map toString) ++ "]"
          ++ (if isLast = false then ", " else "")) := by
  rw [setJSONData_eq key output data isLast hsize]
  unfold arrayText
  simp only [String.append_assoc]
  rfl

/-- Witness of C8: a three-element vector that is not last, and an empty vector that is last. -/
theorem setJSONData_appends_witness :
    setJSONData "symmetry" "\x7b" [1, -2, 30] false = some "\x7b \"symmetry\": [1, -2, 30], "
      ∧ setJSONData "whichSide" "" [] true = some " \"whichSide\": []" :=
  ⟨(setJSONData_appends "symmetry" "\x7b" [1, -2, 30] false (by decide)).trans (by decide),
   (setJSONData_appends "whichSide" "" [] true (by decide)).trans (by decide)⟩

/-! ### C1 -/

/-- C1: for every symmetry result whose six vectors have sizes an `int` holds,
`createResultString` succeeds and sets as result one record with exactly the three fields `e`,
`f`, `vtx` in this order, each holding its `symmetry` array followed by its `whichSide` array,
each array listing the values of its vector in index order. -/
theorem createResultString_record (c : PolySymmetryCommand)
    (hsizes : c.meshSymmetryData.sizesFitInt) :
    createResultString c
      = some (MStatus.kSuccess,
          { c with result := some (CmdResult.string
            ("\x7b" ++ fieldText "e" c.meshSymmetryData.edgeSymmetryIndices c.meshSymmetryData.edgeSides
              ++ ", " ++ fieldText "f" c.meshSymmetryData.faceSymmetryIndices c.meshSymmetryData.faceSides
              ++ ", " ++ fieldText "vtx" c.meshSymmetryData.vertexSymmetryIndices
                  c.meshSymmetryData.vertexSides
              ++ "\x7d")) }) := by
  unfold createResultString
  rw [resultText_eq _ hsizes]
  rfl

set_option maxRecDepth 100000 in
/-- Witness of C1: the record of the two-triangle shell. -/
theorem createResultString_record_witness :
    (createResultString (PolySymmetryCommand.new ⟨5, 2, 4⟩ twoTriangles false false false)).map
        (fun r => (r.1, r.2.result))
      = some (MStatus.kSuccess, some (CmdResult.string
          ("\x7b\"e\": \x7b \"symmetry\": [3, 4, 2, 0, 1],  \"whichSide\": [0, 0, 2, 1, 1]\x7d, "
            ++ "\"f\": \x7b \"symmetry\": [1, 0],  \"whichSide\": [0, 1]\x7d, "
            ++ "\"vtx\": \x7b \"symmetry\": [1, 0, 2, 3],  \"whichSide\": [0, 1, 2, 2]\x7d\x7d"))) := by
  rw [createResultString_record _ twoTriangles_sizesFitInt]
  decide

/-! ### C2 -/

set_option maxRecDepth 100000 in
/-- C2, as stated, fails: for the two-triangle shell (vertex symmetry `[1, 0, 2, 3]`, vertex sides
`[0, 1, 2, 2]`) the text of `createResultString` does not contain the vertex field with the
spacing of the specification's example. -/
theorem resultText_vertex_field_not_spec_example :
    ∃ out, resultText twoTriangles = some out
      ∧ ¬ (specExampleVertexField.toList <:+: out.toList) :=
  ⟨_, resultText_eq twoTriangles twoTriangles_sizesFitInt, by decide⟩

/-- C2, amended: for vertex symmetry `[1, 0, 2, 3]` and vertex sides `[0, 1, 2, 2]` the vertex
field of the text of `createResultString` is the character sequence
`"vtx": { "symmetry": [1, 0, 2, 3],  "whichSide": [0, 1, 2, 2]}`: one blank before each key, hence
two blanks after the comma between the arrays. -/
theorem resultText_vertex_field (d : PolySymmetryData) (hsizes : d.sizesFitInt)
    (hsymmetry : d.vertexSymmetryIndices = [1, 0, 2, 3])
    (hsides : d.vertexSides = [0, 1, 2, 2]) :
    resultText d
      = some ("\x7b" ++ fieldText "e" d.edgeSymmetryIndices d.edgeSides
          ++ ", " ++ fieldText "f" d.faceSymmetryIndices d.faceSides
          ++ ", " ++ "\"vtx\": \x7b \"symmetry\": [1, 0, 2, 3],  \"whichSide\": [0, 1, 2, 2]\x7d"
          ++ "\x7d") := by
  rw [resultText_eq d hsizes]
  unfold recordText
  rw [hsymmetry, hsides]
  rfl

set_option maxRecDepth 100000 in
/-- Witness of C2 amended: the two-triangle shell. -/
theorem resultText_vertex_field_witness :
    resultText twoTriangles
      = some ("\x7b\"e\": \x7b \"symmetry\": [3, 4, 2, 0, 1],  \"whichSide\": [0, 0, 2, 1, 1]\x7d, "
          ++ "\"f\": \x7b \"symmetry\": [1, 0],  \"whichSide\": [0, 1]\x7d, "
          ++ "\"vtx\": \x7b \"symmetry\": [1, 0, 2, 3],  \"whichSide\": [0, 1, 2, 2]\x7d\x7d") :=
  (resultText_vertex_field twoTriangles twoTriangles_sizesFitInt rfl rfl).trans (by decide)

/-! ### C5 and C3 -/

theorem scene_fold (maya : Maya) (seeds : List ComponentSelection) (c : PolySymmetryCommand) :
    seeds.foldl (fun (c : PolySymmetryCommand) s =>
      { c with
        meshSymmetryData := (maya.findSymmetricalVertices s c.meshSymmetryData).1
        engineCalls := c.engineCalls ++ [EngineCall.findSymmetricalVertices s] }) c
      = { c with
          meshSymmetryData :=
            seeds.foldl (fun d s => (maya.findSymmetricalVertices s d).1) c.meshSymmetryData
          engineCalls := c.engineCalls ++ seeds.map EngineCall.findSymmetricalVertices } := by
  induction seeds generalizing c with
  | nil => simp
  | cons s seeds ih => simp [ih]

/-- Closed form of `getSymmetricalComponentsFromScene`. -/
theorem getSymmetricalComponentsFromScene_eq (maya : Maya) (c : PolySymmetryCommand) :
    getSymmetricalComponentsFromScene maya c
      = (MStatus.kSuccess,
          { c with
            meshSymmetryData := maya.finalizeSymmetry (maya.findVertexSides c.leftSideVertexIndices
              (c.symmetryComponents.foldl (fun d s => (maya.findSymmetricalVertices s d).1)
                c.meshSymmetryData))
            engineCalls := c.engineCalls ++ c.symmetryComponents.map EngineCall.findSymmetricalVertices
              ++ [EngineCall.findVertexSides c.leftSideVertexIndices, EngineCall.finalizeSymmetry] }) := by
  unfold getSymmetricalComponentsFromScene
  simp only [scene_fold]
  simp

theorem bind_isSome {α β : Type} {x : Option α} {f : α → Option β} (hx : x.isSome = true)
    (hf : ∀ a, (f a).isSome = true) : (x.bind f).isSome = true := by
  cases x with
  | none => simp at hx
  | some a => simpa using hf a

/-- The text of `createResultString` exists for symmetry data of every size. -/
theorem resultText_isSome (d : PolySymmetryData) : (resultText d).isSome = true := by
  unfold resultText
  simp only []
  refine bind_isSome (setJSONData_isSome _ _ _ _) fun _ => ?_
  refine bind_isSome (setJSONData_isSome _ _ _ _) fun _ => ?_
  refine bind_isSome (setJSONData_isSome _ _ _ _) fun _ => ?_
  refine bind_isSome (setJSONData_isSome _ _ _ _) fun _ => ?_
  refine bind_isSome (setJSONData_isSome _ _ _ _) fun _ => ?_
  refine bind_isSome (setJSONData_isSome _ _ _ _) fun _ => ?_
  rfl

/-- C5: `getSymmetricalComponentsFromScene` calls `findSymmetricalVertices` exactly once per seed,
in the order of the seed list, then `findVertexSides` exactly once with the complete list of
left-side vertex ids, then `finalizeSymmetry` exactly once; the symmetry data it leaves is the
result of these calls applied in that order. -/
theorem getSymmetricalComponentsFromScene_calls (maya : Maya) (c : PolySymmetryCommand) :
    (getSymmetricalComponentsFromScene maya c).2.engineCalls
        = c.engineCalls ++ c.symmetryComponents.map EngineCall.findSymmetricalVertices
            ++ [EngineCall.findVertexSides c.leftSideVertexIndices, EngineCall.finalizeSymmetry]
      ∧ (getSymmetricalComponentsFromScene maya c).2.meshSymmetryData
        = maya.finalizeSymmetry (maya.findVertexSides c.leftSideVertexIndices
            (c.symmetryComponents.foldl (fun d s => (maya.findSymmetricalVertices s d).1)
              c.meshSymmetryData)) := by
  rw [getSymmetricalComponentsFromScene_eq]
  exact ⟨rfl, rfl⟩

/-- The status `createResultNode` returns is the one `doUndoableCommand` passes on. -/
theorem doUndoableCommand_eq (maya : Maya) (c : PolySymmetryCommand) :
    doUndoableCommand maya c
      = if c.constructionHistory then
          some (createResultNode maya (getSymmetricalComponentsFromScene maya c).2)
        else
          (resultText (getSymmetricalComponentsFromScene maya c).2.meshSymmetryData).map fun text =>
            (MStatus.kSuccess,
              { (getSymmetricalComponentsFromScene maya c).2 with
                result := some (CmdResult.string text) }) := by
  have h1 : (getSymmetricalComponentsFromScene maya c).1 = MStatus.kSuccess := by
    rw [getSymmetricalComponentsFromScene_eq]
  have h2 : (getSymmetricalComponentsFromScene maya c).2.constructionHistory
      = c.constructionHistory := by
    rw [getSymmetricalComponentsFromScene_eq]
  unfold doUndoableCommand
  rw [← h2]
  generalize getSymmetricalComponentsFromScene maya c = r at h1
  obtain ⟨st0, c1⟩ := r
  simp only at h1
  subst h1
  cases hch : c1.constructionHistory with
  | true =>
    simp only [hch, MStatus.ok, Bool.not_true, Bool.false_eq_true, if_false, if_true]
    generalize createResultNode maya c1 = made
    obtain ⟨st, c2⟩ := made
    cases st <;> simp
  | false =>
    simp only [hch, MStatus.ok, createResultString, Option.map_map, Bool.not_true,
      Bool.false_eq_true, if_false]
    rfl

set_option maxRecDepth 100000 in
/-- C3, as stated, fails: on `exampleHost` the propagation of the only seed of
`asymmetricSeedCommand` reports an inconsistent symmetry, and yet
`getSymmetricalComponentsFromScene` returns `kSuccess` and `doUndoableCommand` returns `kSuccess`
with a result string. -/
theorem doUndoableCommand_succeeds_on_failed_propagation :
    (exampleHost.findSymmetricalVertices ⟨(0, 1), (0, 1), (0, 1), -1⟩ unset).2
        = PropagationOutcome.inconsistentSymmetry
      ∧ (getSymmetricalComponentsFromScene exampleHost asymmetricSeedCommand).1 = MStatus.kSuccess
      ∧ (doUndoableCommand exampleHost asymmetricSeedCommand).map (fun r => (r.1, r.2.result))
        = some (MStatus.kSuccess, some (CmdResult.string
            ("\x7b\"e\": \x7b \"symmetry\": [-1, -1, -1, -1, -1],  \"whichSide\": [-1, -1, -1, -1, -1]\x7d, "
              ++ "\"f\": \x7b \"symmetry\": [-1, -1],  \"whichSide\": [-1, -1]\x7d, "
              ++ "\"vtx\": \x7b \"symmetry\": [-1, -1, -1, -1],  \"whichSide\": [-1, -1, -1, -1]\x7d\x7d"))) := by
  refine ⟨by decide, by decide, by decide⟩

/-- C3, amended: `getSymmetricalComponentsFromScene` returns `kSuccess` whatever the propagations
report, and `doUndoableCommand` then always goes on to the result: with construction history it
returns what `createResultNode` returns (so it fails only when creating the node fails), without
it it returns `kSuccess` with a result string. -/
theorem doUndoableCommand_ignores_propagation_outcome (maya : Maya) (c : PolySymmetryCommand) :
    (getSymmetricalComponentsFromScene maya c).1 = MStatus.kSuccess
      ∧ (resultText (getSymmetricalComponentsFromScene maya c).2.meshSymmetryData).isSome = true
      ∧ doUndoableCommand maya c
        = if c.constructionHistory then
            some (createResultNode maya (getSymmetricalComponentsFromScene maya c).2)
          else
            (resultText (getSymmetricalComponentsFromScene maya c).2.meshSymmetryData).map
              fun text => (MStatus.kSuccess,
                { (getSymmetricalComponentsFromScene maya c).2 with
                  result := some (CmdResult.string text) }) :=
  ⟨by rw [getSymmetricalComponentsFromScene_eq], resultText_isSome _, doUndoableCommand_eq maya c⟩

/-! ### C4 -/

theorem Frame.refl (c : PolySymmetryCommand) : Frame c c :=
  ⟨rfl, rfl, rfl, rfl, rfl, rfl, rfl, rfl⟩

theorem Frame.trans {a b c : PolySymmetryCommand} (h1 : Frame a b) (h2 : Frame b c) : Frame a c := by
  obtain ⟨p1, p2, p3, p4, p5, p6, p7, p8⟩ := h1
  obtain ⟨q1, q2, q3, q4, q5, q6, q7, q8⟩ := h2
  exact ⟨q1.trans p1, q2.trans p2, q3.trans p3, q4.trans p4, q5.trans p5, q6.trans p6,
    q7.trans p7, q8.trans p8⟩

theorem MStatus.ok_iff (st : MStatus) : st.ok = true ↔ st = MStatus.kSuccess := by
  cases st <;> simp [MStatus.ok]

theorem getSelectedMesh_frame (maya : Maya) (argsData : MArgDatabase) (c : PolySymmetryCommand) :
    Frame c (getSelectedMesh maya argsData c).2
      ∧ (getSelectedMesh maya argsData c).2.symmetryComponents = c.symmetryComponents := by
  unfold getSelectedMesh
  simp only []
  split
  · exact ⟨Frame.refl c, rfl⟩
  · split
    · exact ⟨Frame.refl c, rfl⟩
    · split <;> exact ⟨Frame.refl c, rfl⟩

theorem getSymmetryComponentsLoop_frame (maya : Maya) (uses : List (MStatus × MArgList))
    (c : PolySymmetryCommand) : Frame c (getSymmetryComponentsLoop maya uses c).2 := by
  induction uses generalizing c with
  | nil => exact Frame.refl c
  | cons use uses ih =>
    unfold getSymmetryComponentsLoop
    simp only []
    split
    · exact Frame.refl c
    · split
      · exact Frame.refl c
      · split
        · exact Frame.trans (Frame.refl c) (ih _)
        · exact Frame.refl c

theorem getSymmetryComponents_frame (maya : Maya) (argsData : MArgDatabase)
    (c : PolySymmetryCommand) : Frame c (getSymmetryComponents maya argsData c).2 := by
  unfold getSymmetryComponents
  simp only []
  split
  · exact getSymmetryComponentsLoop_frame maya _ c
  · split <;> exact getSymmetryComponentsLoop_frame maya _ c

theorem getLeftSideVertexIndices_frame (maya : Maya) (argsData : MArgDatabase)
    (c : PolySymmetryCommand) : Frame c (getLeftSideVertexIndices maya argsData c).2 := by
  unfold getLeftSideVertexIndices
  simp only []
  split
  · exact Frame.refl c
  · split <;> exact Frame.refl c

theorem getSymmetryComponents_no_seeds (maya : Maya) (argsData : MArgDatabase)
    (c : PolySymmetryCommand) (huses : argsData.symmetryComponentsUses = [])
    (hseeds : c.symmetryComponents = []) :
    getSymmetryComponents maya argsData c = (MStatus.kFailure, c) := by
  unfold getSymmetryComponents
  rw [huses]
  simp [getSymmetryComponentsLoop, MStatus.ok, hseeds]

theorem parseArguments_frame (maya : Maya) (argsData : MArgDatabase) (c : PolySymmetryCommand) :
    (parseArguments maya argsData c).2.meshSymmetryNode = c.meshSymmetryNode
      ∧ (parseArguments maya argsData c).2.meshSymmetryData = c.meshSymmetryData
      ∧ (parseArguments maya argsData c).2.isQuery = c.isQuery
      ∧ (parseArguments maya argsData c).2.result = c.result
      ∧ (parseArguments maya argsData c).2.engineCalls = c.engineCalls := by
  have key : ∀ c0 : PolySymmetryCommand,
      (c0.meshSymmetryNode = c.meshSymmetryNode ∧ c0.meshSymmetryData = c.meshSymmetryData
        ∧ c0.isQuery = c.isQuery ∧ c0.result = c.result ∧ c0.engineCalls = c.engineCalls) →
      ∀ c1, Frame c0 c1 →
      (c1.meshSymmetryNode = c.meshSymmetryNode ∧ c1.meshSymmetryData = c.meshSymmetryData
        ∧ c1.isQuery = c.isQuery ∧ c1.result = c.result ∧ c1.engineCalls = c.engineCalls) := by
    intro c0 ⟨a1, a2, a3, a4, a5⟩ c1 ⟨p1, p2, p3, _, _, p6, p7, _⟩
    exact ⟨p1.trans a1, p2.trans a2, p3.trans a3, p6.trans a4, p7.trans a5⟩
  unfold parseArguments
  simp only []
  split
  · exact ⟨rfl, rfl, rfl, rfl, rfl⟩
  · generalize hr0 : (if argsData.constructionHistoryFlagSet.2 = true then
        (argsData.constructionHistoryArgument.1,
          { c with constructionHistory := argsData.constructionHistoryArgument.2 })
      else (MStatus.kSuccess, { c with constructionHistory := true })) = r0
    have h0 : r0.2.meshSymmetryNode = c.meshSymmetryNode ∧ r0.2.meshSymmetryData = c.meshSymmetryData
        ∧ r0.2.isQuery = c.isQuery ∧ r0.2.result = c.result ∧ r0.2.engineCalls = c.engineCalls := by
      subst hr0
      split <;> exact ⟨rfl, rfl, rfl, rfl, rfl⟩
    have f1 := (getSelectedMesh_frame maya argsData r0.2).1
    have f2 := getSymmetryComponents_frame maya argsData (getSelectedMesh maya argsData r0.2).2
    have f3 := getLeftSideVertexIndices_frame maya argsData
      (getSymmetryComponents maya argsData (getSelectedMesh maya argsData r0.2).2).2
    split
    · exact h0
    · split
      · exact key _ h0 _ f1
      · split
        · exact key _ h0 _ (f1.trans f2)
        · split <;> exact key _ h0 _ ((f1.trans f2).trans f3)

theorem parseArguments_no_seeds (maya : Maya) (argsData : MArgDatabase)
    (c : PolySymmetryCommand) (huses : argsData.symmetryComponentsUses = [])
    (hseeds : c.symmetryComponents = []) :
    (parseArguments maya argsData c).1.ok = false := by
  unfold parseArguments
  simp only []
  split
  · rename_i h; simpa using h
  · generalize hr0 : (if argsData.constructionHistoryFlagSet.2 = true then
        (argsData.constructionHistoryArgument.1,
          { c with constructionHistory := argsData.constructionHistoryArgument.2 })
      else (MStatus.kSuccess, { c with constructionHistory := true })) = r0
    have h0 : r0.2.symmetryComponents = [] := by
      subst hr0
      split <;> exact hseeds
    have h1 : (getSelectedMesh maya argsData r0.2).2.symmetryComponents = [] :=
      (getSelectedMesh_frame maya argsData r0.2).2.trans h0
    have h2 := getSymmetryComponents_no_seeds maya argsData _ huses h1
    split
    · rename_i h; simpa using h
    · split
      · rename_i h; simpa using h
      · rw [h2]
        simp [MStatus.ok]

/-- C4: for every non-query invocation without any use of the symmetry-components flag, on a
command whose seed list is empty, `getSymmetryComponents` returns `kFailure`, `parseArguments`
fails, and `doIt` returns a failure (the one of `parseArguments` once the command line itself was
accepted) with the symmetry data not initialized, no propagation run and no result set. -/
theorem doIt_fails_without_seeds (maya : Maya) (argsData : MArgDatabase) (c : PolySymmetryCommand)
    (hquery : argsData.isQuery = false) (huses : argsData.symmetryComponentsUses = [])
    (hseeds : c.symmetryComponents = []) :
    (getSymmetryComponents maya argsData c).1 = MStatus.kFailure
      ∧ (parseArguments maya argsData c).1.ok = false
      ∧ ∃ st c', doIt maya argsData c = some (st, c') ∧ st.ok = false
          ∧ (argsData.status.ok = true → st = (parseArguments maya argsData c).1)
          ∧ c'.meshSymmetryData = c.meshSymmetryData ∧ c'.engineCalls = c.engineCalls
          ∧ c'.result = c.result := by
  have hparse := parseArguments_no_seeds maya argsData c huses hseeds
  obtain ⟨_, f2, _, f4, f5⟩ := parseArguments_frame maya argsData c
  refine ⟨by rw [getSymmetryComponents_no_seeds maya argsData c huses hseeds], hparse, ?_⟩
  unfold doIt
  cases hst : argsData.status.ok with
  | false => exact ⟨argsData.status, c, by simp, hst, by simp, rfl, rfl, rfl⟩
  | true =>
    refine ⟨(parseArguments maya argsData c).1, (parseArguments maya argsData c).2, ?_, hparse,
      fun _ => rfl, f2, f5, f4⟩
    simp [hquery, hparse]

set_option maxRecDepth 100000 in
/-- Witness of C4: `doIt` on `noSeedArgs` fails after only the mesh was selected. -/
theorem doIt_fails_without_seeds_witness :
    (noSeedArgs.isQuery = false ∧ noSeedArgs.symmetryComponentsUses = []
        ∧ freshCommand.symmetryComponents = [])
      ∧ ((getSymmetryComponents exampleHost noSeedArgs freshCommand).1 = MStatus.kFailure
        ∧ (parseArguments exampleHost noSeedArgs freshCommand).1.ok = false
        ∧ ∃ st c', doIt exampleHost noSeedArgs freshCommand = some (st, c') ∧ st.ok = false
            ∧ (noSeedArgs.status.ok = true
                → st = (parseArguments exampleHost noSeedArgs freshCommand).1)
            ∧ c'.meshSymmetryData = freshCommand.meshSymmetryData
            ∧ c'.engineCalls = freshCommand.engineCalls
            ∧ c'.result = freshCommand.result)
      ∧ doIt exampleHost noSeedArgs freshCommand
        = some (MStatus.kFailure,
            { freshCommand with
              selectedMesh := ⟨true, "pPlane1", true, false⟩, meshData := ⟨5, 2, 4⟩ }) :=
  ⟨⟨rfl, rfl, rfl⟩, doIt_fails_without_seeds exampleHost noSeedArgs freshCommand rfl rfl rfl,
    by decide⟩

/-! ### C6 -/

theorem getLeftSideVertexIndicesLoop_status (maya : Maya) (c : PolySymmetryCommand)
    (uses : List (MStatus × MArgList)) (selection : MSelectionList)
    (hread : ∀ use ∈ uses, use.1 = MStatus.kSuccess) :
    (getLeftSideVertexIndicesLoop maya c uses selection).1 = MStatus.kSuccess := by
  induction uses generalizing selection with
  | nil => rfl
  | cons use uses ih =>
    unfold getLeftSideVertexIndicesLoop
    have h1 : use.1 = MStatus.kSuccess := hread use (List.mem_cons_self _ _)
    simp only [h1, MStatus.ok, Bool.not_true, Bool.false_eq_true, if_false]
    exact ih _ (fun u hu => hread u (List.mem_cons_of_mem _ hu))

/-- C6: when every argument list of the left-side-vertex flag can be read,
`getLeftSideVertexIndices` returns `kFailure` when the list of left-side vertex indices obtained
from the names that resolved is empty and `kSuccess` whenever it is not, whether or not some of
the names failed to resolve. -/
theorem getLeftSideVertexIndices_status (maya : Maya) (argsData : MArgDatabase)
    (c : PolySymmetryCommand)
    (hread : ∀ use ∈ argsData.leftSideVertexUses, use.1 = MStatus.kSuccess) :
    (getLeftSideVertexIndices maya argsData c).2.leftSideVertexIndices
        = maya.getSelectedComponentIndices
            (getLeftSideVertexIndicesLoop maya c argsData.leftSideVertexUses []).2
            c.leftSideVertexIndices MFnType.kMeshVertComponent
      ∧ (getLeftSideVertexIndices maya argsData c).1
        = if (getLeftSideVertexIndices maya argsData c).2.leftSideVertexIndices = []
          then MStatus.kFailure else MStatus.kSuccess := by
  have hloop := getLeftSideVertexIndicesLoop_status maya c argsData.leftSideVertexUses [] hread
  unfold getLeftSideVertexIndices
  simp only [hloop, MStatus.ok, Bool.not_true, Bool.false_eq_true, if_false, List.isEmpty_iff]
  split
  · rename_i h
    exact ⟨rfl, by simp [h]⟩
  · rename_i h
    exact ⟨rfl, by simp [h]⟩

set_option maxRecDepth 100000 in
/-- Witness of C6: of the two names of `seedArgs` the second does not resolve and the call still
succeeds with the index of the first; with only the unresolved name the list is empty and the
call fails. -/
theorem getLeftSideVertexIndices_status_witness :
    (∀ use ∈ seedArgs.leftSideVertexUses, use.1 = MStatus.kSuccess)
      ∧ (exampleHost.selectionAdd ["pPlane1.vtx[0]"] "pPlane1.nothing").1 = MStatus.kNotFound
      ∧ (getLeftSideVertexIndices exampleHost seedArgs meshCommand).2.leftSideVertexIndices = [0]
      ∧ (getLeftSideVertexIndices exampleHost seedArgs meshCommand).1 = MStatus.kSuccess
      ∧ (getLeftSideVertexIndices exampleHost unresolvedLeftArgs meshCommand).2.leftSideVertexIndices
          = []
      ∧ (getLeftSideVertexIndices exampleHost unresolvedLeftArgs meshCommand).1
          = MStatus.kFailure :=
  have hread : ∀ use ∈ seedArgs.leftSideVertexUses, use.1 = MStatus.kSuccess := by decide
  have hread' : ∀ use ∈ unresolvedLeftArgs.leftSideVertexUses, use.1 = MStatus.kSuccess := by
    decide
  ⟨hread, by decide, by decide,
    (getLeftSideVertexIndices_status exampleHost seedArgs meshCommand hread).2.trans (by decide),
    by decide,
    (getLeftSideVertexIndices_status exampleHost unresolvedLeftArgs meshCommand hread').2.trans
      (by decide)⟩

/-! ### C7 -/

/-- C7: in query mode on a valid mesh `redoIt` runs `doQueryMeshAction`, which returns
`kSuccess` on a cache hit and on a miss, runs no propagation and leaves the symmetry data as it
was.  With the exists flag the result is exactly the boolean of the cache lookup; without it the
result is the name of the cached node on a hit, and no result is set on a miss. -/
theorem doQueryMeshAction_result (maya : Maya) (c : PolySymmetryCommand)
    (hquery : c.isQuery = true) (hmesh : c.selectedMesh.isValid = true) :
    redoIt maya c = some (doQueryMeshAction maya c)
      ∧ (doQueryMeshAction maya c).1 = MStatus.kSuccess
      ∧ (doQueryMeshAction maya c).2.meshSymmetryNode
          = (maya.getNodeFromCache c.selectedMesh c.meshSymmetryNode).2
      ∧ (doQueryMeshAction maya c).2.meshSymmetryData = c.meshSymmetryData
      ∧ (doQueryMeshAction maya c).2.engineCalls = c.engineCalls
      ∧ (doQueryMeshAction maya c).2.result
          = if c.isQueryExists then
              some (CmdResult.bool (maya.getNodeFromCache c.selectedMesh c.meshSymmetryNode).1)
            else if (maya.getNodeFromCache c.selectedMesh c.meshSymmetryNode).1 then
              some (CmdResult.string
                (maya.nodeName (maya.getNodeFromCache c.selectedMesh c.meshSymmetryNode).2))
            else c.result := by
  refine ⟨by simp [redoIt, hquery, hmesh], ?_⟩
  unfold doQueryMeshAction
  simp only []
  cases c.isQueryExists with
  | true => exact ⟨rfl, rfl, rfl, rfl, rfl⟩
  | false =>
    cases (maya.getNodeFromCache c.selectedMesh c.meshSymmetryNode).1 with
    | true => exact ⟨rfl, rfl, rfl, rfl, rfl⟩
    | false => exact ⟨rfl, rfl, rfl, rfl, rfl⟩

/-- Witness of C7: with the exists flag the result is `true` on the host with a cached node and
`false` on the host with an empty cache. -/
theorem doQueryMeshAction_result_witness :
    (existsQueryCommand.isQuery = true ∧ existsQueryCommand.selectedMesh.isValid = true)
      ∧ (doQueryMeshAction cachedHost existsQueryCommand).1 = MStatus.kSuccess
      ∧ (doQueryMeshAction cachedHost existsQueryCommand).2.result = some (CmdResult.bool true)
      ∧ (doQueryMeshAction exampleHost existsQueryCommand).1 = MStatus.kSuccess
      ∧ (doQueryMeshAction exampleHost existsQueryCommand).2.result
          = some (CmdResult.bool false) :=
  ⟨⟨rfl, rfl⟩,
    (doQueryMeshAction_result cachedHost existsQueryCommand rfl rfl).2.1,
    (doQueryMeshAction_result cachedHost existsQueryCommand rfl rfl).2.2.2.2.2.trans rfl,
    (doQueryMeshAction_result exampleHost existsQueryCommand rfl rfl).2.1,
    (doQueryMeshAction_result exampleHost existsQueryCommand rfl rfl).2.2.2.2.2.trans rfl⟩

/-! ### C10 -/

theorem createResultNode_success (maya : Maya) (c : PolySymmetryCommand)
    (hok : (createResultNode maya c).1 = MStatus.kSuccess) :
    (maya.createNode maya.NODE_NAME).2 = MStatus.kSuccess
      ∧ (createResultNode maya c).2.meshSymmetryNode = (maya.createNode maya.NODE_NAME).1
      ∧ (createResultNode maya c).2.constructionHistory = c.constructionHistory := by
  unfold createResultNode at hok ⊢
  simp only [] at hok ⊢
  by_cases h : (!(maya.createNode maya.NODE_NAME).2.ok) = true
  · rw [if_pos h] at hok
    simp only at hok
    rw [hok] at h
    simp [MStatus.ok] at h
  · rw [if_neg h] at hok ⊢
    have hcreated : (maya.createNode maya.NODE_NAME).2 = MStatus.kSuccess := by
      rw [← MStatus.ok_iff]
      simpa using h
    generalize hfind : List.find? (fun status => !MStatus.ok status) _ = found at hok ⊢
    cases found with
    | some status =>
      simp only at hok
      have hbad := List.find?_some hfind
      rw [hok] at hbad
      simp [MStatus.ok] at hbad
    | none => exact ⟨hcreated, rfl, rfl⟩

theorem parseArguments_constructionHistory (maya : Maya) (argsData : MArgDatabase)
    (c : PolySymmetryCommand) :
    (parseArguments maya argsData c).1.ok = true →
    (parseArguments maya argsData c).2.constructionHistory
      = if argsData.constructionHistoryFlagSet.2 then argsData.constructionHistoryArgument.2
        else true := by
  unfold parseArguments
  simp only []
  split
  · rename_i h
    intro h'
    simp [h'] at h
  · generalize hr0 : (if argsData.constructionHistoryFlagSet.2 = true then
        (argsData.constructionHistoryArgument.1,
          { c with constructionHistory := argsData.constructionHistoryArgument.2 })
      else (MStatus.kSuccess, { c with constructionHistory := true })) = r0
    have h0 : r0.2.constructionHistory
        = if argsData.constructionHistoryFlagSet.2 then argsData.constructionHistoryArgument.2
          else true := by
      subst hr0
      split <;> rfl
    have f1 := (getSelectedMesh_frame maya argsData r0.2).1
    have f2 := getSymmetryComponents_frame maya argsData (getSelectedMesh maya argsData r0.2).2
    have f3 := getLeftSideVertexIndices_frame maya argsData
      (getSymmetryComponents maya argsData (getSelectedMesh maya argsData r0.2).2).2
    have g3 := ((f1.trans f2).trans f3).2.2.2.2.1
    split
    · rename_i h; intro h'; simp [h'] at h
    · split
      · rename_i h; intro h'; simp [h'] at h
      · split
        · rename_i h; intro h'; simp [h'] at h
        · split
          · rename_i h; intro h'; simp [h'] at h
          · intro _
            exact g3.trans h0

theorem doUndoableCommand_success (maya : Maya) (c c' : PolySymmetryCommand)
    (hrun : doUndoableCommand maya c = some (MStatus.kSuccess, c')) :
    c'.constructionHistory = c.constructionHistory
      ∧ (c.constructionHistory = true →
          (maya.createNode maya.NODE_NAME).2 = MStatus.kSuccess
            ∧ c'.meshSymmetryNode = (maya.createNode maya.NODE_NAME).1)
      ∧ (c.constructionHistory = false → c'.meshSymmetryNode = c.meshSymmetryNode) := by
  have h1 : (getSymmetricalComponentsFromScene maya c).2.constructionHistory
      = c.constructionHistory := by rw [getSymmetricalComponentsFromScene_eq]
  have h2 : (getSymmetricalComponentsFromScene maya c).2.meshSymmetryNode
      = c.meshSymmetryNode := by rw [getSymmetricalComponentsFromScene_eq]
  rw [doUndoableCommand_eq] at hrun
  generalize (getSymmetricalComponentsFromScene maya c).2 = s at hrun h1 h2
  cases hc : c.constructionHistory with
  | true =>
    rw [hc] at hrun h1
    simp only [if_true, Option.some.injEq] at hrun
    have hst : (createResultNode maya s).1 = MStatus.kSuccess := by rw [hrun]
    have hc' : (createResultNode maya s).2 = c' := by rw [hrun]
    obtain ⟨k1, k2, k3⟩ := createResultNode_success maya s hst
    rw [hc'] at k2 k3
    exact ⟨k3.trans h1, fun _ => ⟨k1, k2⟩, fun hf => by simp at hf⟩
  | false =>
    rw [hc] at hrun h1
    simp only [Bool.false_eq_true, if_false] at hrun
    obtain ⟨text, _, htext⟩ := Option.map_eq_some'.mp hrun
    have hc' := congrArg Prod.snd htext
    simp only at hc'
    subst hc'
    exact ⟨h1, fun ht => by simp at ht, fun _ => h2⟩

theorem redoIt_of_not_query (maya : Maya) (c : PolySymmetryCommand) (hq : c.isQuery = false) :
    redoIt maya c = doUndoableCommand maya c := by
  unfold redoIt
  rw [hq]
  rfl

theorem doIt_success (maya : Maya) (argsData : MArgDatabase) (c c' : PolySymmetryCommand)
    (hquery : argsData.isQuery = false) (hq : c.isQuery = false)
    (hrun : doIt maya argsData c = some (MStatus.kSuccess, c')) :
    (parseArguments maya argsData c).1.ok = true
      ∧ doUndoableCommand maya
          { (parseArguments maya argsData c).2 with
            meshSymmetryData := maya.initializeData (parseArguments maya argsData c).2.selectedMesh
              (parseArguments maya argsData c).2.meshSymmetryData
            engineCalls := (parseArguments maya argsData c).2.engineCalls
              ++ [EngineCall.initializeData (parseArguments maya argsData c).2.selectedMesh] }
        = some (MStatus.kSuccess, c') := by
  obtain ⟨_, _, fquery, _, _⟩ := parseArguments_frame maya argsData c
  unfold doIt at hrun
  simp only [hquery, Bool.false_eq_true, if_false] at hrun
  by_cases h0 : (!argsData.status.ok) = true
  · rw [if_pos h0] at hrun
    simp only [Option.some.injEq, Prod.mk.injEq] at hrun
    rw [hrun.1] at h0
    simp [MStatus.ok] at h0
  · rw [if_neg h0] at hrun
    by_cases h1 : (!(parseArguments maya argsData c).1.ok) = true
    · rw [if_pos h1] at hrun
      simp only [Option.some.injEq] at hrun
      rw [hrun] at h1
      simp [MStatus.ok] at h1
    · rw [if_neg h1] at hrun
      rw [redoIt_of_not_query] at hrun
      · exact ⟨by simpa using h1, hrun⟩
      · exact fquery.trans hq

/-- C10: `isUndoable` returns true exactly when the command holds a non-null node.  After a
successful non-query `doIt` on a freshly constructed command, on a host whose `createNode` gives a
non-null node when it succeeds: the construction-history member is the flag's argument, or true
when the flag is absent; when it is false the node is still null and the command is not undoable;
when it is true the command is undoable. -/
theorem isUndoable_after_doIt (maya : Maya) (argsData : MArgDatabase) (meshData : MeshData)
    (meshSymmetryData : PolySymmetryData) (isQueryExists constructionHistory : Bool)
    (c' : PolySymmetryCommand)
    (hcreate : (maya.createNode maya.NODE_NAME).2 = MStatus.kSuccess
      → (maya.createNode maya.NODE_NAME).1.isNull = false)
    (hquery : argsData.isQuery = false)
    (hrun : doIt maya argsData
        (PolySymmetryCommand.new meshData meshSymmetryData false isQueryExists constructionHistory)
      = some (MStatus.kSuccess, c')) :
    (∀ c : PolySymmetryCommand, isUndoable c = true ↔ c.meshSymmetryNode.isNull = false)
      ∧ c'.constructionHistory
          = (if argsData.constructionHistoryFlagSet.2 then argsData.constructionHistoryArgument.2
             else true)
      ∧ (c'.constructionHistory = false →
          c'.meshSymmetryNode = MObject.null ∧ isUndoable c' = false)
      ∧ (c'.constructionHistory = true → isUndoable c' = true) := by
  refine ⟨fun c => by simp [isUndoable], ?_⟩
  obtain ⟨hparse, hdo⟩ := doIt_success maya argsData _ c' hquery rfl hrun
  have hch := parseArguments_constructionHistory maya argsData _ hparse
  obtain ⟨fnode, _, _, _, _⟩ := parseArguments_frame maya argsData
    (PolySymmetryCommand.new meshData meshSymmetryData false isQueryExists constructionHistory)
  obtain ⟨g1, g2, g3⟩ := doUndoableCommand_success maya _ c' hdo
  simp only at g1 g2 g3
  refine ⟨g1.trans hch, fun hf => ?_, fun ht => ?_⟩
  · have hn : c'.meshSymmetryNode = MObject.null := (g3 (g1.symm.trans hf)).trans fnode
    exact ⟨hn, by simp [isUndoable, hn, MObject.null, MObject.isNull]⟩
  · obtain ⟨k1, k2⟩ := g2 (g1.symm.trans ht)
    simp [isUndoable, k2, hcreate k1]

set_option maxRecDepth 100000 in
/-- Witness of C10: the run on `seedArgs` (construction history off) is not undoable, the run on
`historyArgs` (flag absent) is. -/
theorem isUndoable_after_doIt_witness :
    doIt exampleHost seedArgs freshCommand = some (MStatus.kSuccess, afterRunWithoutHistory)
      ∧ afterRunWithoutHistory.meshSymmetryNode = MObject.null
      ∧ isUndoable afterRunWithoutHistory = false
      ∧ doIt exampleHost historyArgs freshCommand = some (MStatus.kSuccess, afterRunWithHistory)
      ∧ isUndoable afterRunWithHistory = true :=
  have h1 : doIt exampleHost seedArgs freshCommand
      = some (MStatus.kSuccess, afterRunWithoutHistory) := by decide
  have h2 : doIt exampleHost historyArgs freshCommand
      = some (MStatus.kSuccess, afterRunWithHistory) := by decide
  ⟨h1,
    ((isUndoable_after_doIt exampleHost seedArgs _ _ _ _ afterRunWithoutHistory (by decide) rfl
      h1).2.2.1 rfl).1,
    ((isUndoable_after_doIt exampleHost seedArgs _ _ _ _ afterRunWithoutHistory (by decide) rfl
      h1).2.2.1 rfl).2,
    h2,
    (isUndoable_after_doIt exampleHost historyArgs _ _ _ _ afterRunWithHistory (by decide) rfl
      h2).2.2.2 rfl⟩

/-! ### C9 -/

theorem finalize_length_aux1 (maya : Maya) (seeds : List ComponentSelection) (command : MArgList) :
    (seeds.foldl (fun command cs =>
      let command := command ++ [maya.flagArg Flag.SYMMETRY_COMPONENTS_FLAG]
      let command := addFormatArg maya command "e[^1s]" cs.edgeIndices.1
      let command := addFormatArg maya command "e[^1s]" cs.edgeIndices.2
      let command := addFormatArg maya command "f[^1s]" cs.faceIndices.1
      let command := addFormatArg maya command "f[^1s]" cs.faceIndices.2
      let command := addFormatArg maya command "vtx[^1s]" cs.vertexIndices.1
      let command := addFormatArg maya command "vtx[^1s]" cs.vertexIndices.2
      command) command).length = command.length + 7 * seeds.length := by
  induction seeds generalizing command with
  | nil => simp
  | cons cs seeds ih =>
    rw [List.foldl_cons, ih]
    simp [addFormatArg]
    omega

theorem finalize_length_aux2 (maya : Maya) (left : List Int) (command : MArgList) :
    (left.foldl (fun command i =>
      let command := command ++ [maya.flagArg Flag.LEFT_SIDE_VERTEX_FLAG]
      let command := addFormatArg maya command "vtx[^1s]" i
      command) command).length = command.length + 2 * left.length := by
  induction left generalizing command with
  | nil => simp
  | cons i left ih =>
    rw [List.foldl_cons, ih]
    simp [addFormatArg]
    omega

/-- The symmetry-components flag is declared by `getSyntax` with six string arguments and may be
used several times. -/
theorem getSyntax_symmetry_components_flag :
    getSyntax.flags.find? (fun decl => decl.flag = Flag.SYMMETRY_COMPONENTS_FLAG)
      = some ⟨Flag.SYMMETRY_COMPONENTS_FLAG, List.replicate 6 MArgType.kString, true⟩ := by
  decide

/-- The command `finalize` builds has `1 + 7n + 2m + 1` arguments: the count of the claim holds,
whatever the component arguments are. -/
theorem finalize_length (maya : Maya) (c : PolySymmetryCommand) :
    (finalize maya c).2.length
      = 1 + 7 * c.symmetryComponents.length + 2 * c.leftSideVertexIndices.length + 1 := by
  unfold finalize
  simp only [List.length_append, finalize_length_aux1, finalize_length_aux2]
  simp

set_option maxRecDepth 100000 in
/-- C9 on the code: for one seed (edges 0 and 3, faces 0 and 1, vertices 0 and 1) and the left-side
vertex 0, `finalize` builds eleven arguments, and each of the seven component arguments is the
boolean of the status that `format` returned for the bare index used as format text; none is a
component name, the third argument for one is not the text `e[0]`. -/
theorem finalize_component_arguments (maya : Maya) :
    (finalize maya seededCommand).2
        = [MArg.string maya.commandString,
           maya.flagArg Flag.SYMMETRY_COMPONENTS_FLAG,
           MArg.bool (maya.format "0" []).1.ok, MArg.bool (maya.format "3" []).1.ok,
           MArg.bool (maya.format "0" []).1.ok, MArg.bool (maya.format "1" []).1.ok,
           MArg.bool (maya.format "0" []).1.ok, MArg.bool (maya.format "1" []).1.ok,
           maya.flagArg Flag.LEFT_SIDE_VERTEX_FLAG,
           MArg.bool (maya.format "0" []).1.ok,
           MArg.string "pPlane1"]
      ∧ (finalize maya seededCommand).2[2]? ≠ some (MArg.string "e[0]") := by
  constructor
  · rfl
  · simp [finalize, seededCommand, addFormatArg, freshCommand, PolySymmetryCommand.new]

end PolySymmetry
